import Mathlib

/-!
Shallow embedding of the telemetry backend in `src/server.js` (Keccak repo):
validators, `clampDays`, `readJsonBody`, `storeEvent`, `buildStats`, and the
`POST /api/events` / `GET /api/stats` request handlers.

Modelling conventions:
- JavaScript values flowing out of JSON parsing are modelled by `JsValue`
  (strings, rationals for finite numbers, booleans, null, undefined,
  objects as association lists, arrays).
- UTC calendar dates are modelled as integer day numbers; `utcDateOffset`
  subtracts the offset from "today" exactly as the source computes the
  `YYYY-MM-DD` string for `i` days back.
- Redis hashes are association lists `List (String × Nat)` (HINCRBY on an
  absent field creates it at the increment); redis sets are `Finset String`.
- Asynchrony is immaterial to the claims: each store transaction either
  commits atomically or raises, which we model by an explicit
  `Except String Unit` transaction outcome, and each per-day read in
  `buildStats` either yields the day bucket or raises, modelled by an
  error oracle `errAt : Int → Option String`.
-/

namespace Keccak

/-- JavaScript values as produced by `JSON.parse` plus `undefined`. -/
inductive JsValue where
  | vStr (s : String)
  | vNum (q : ℚ)
  | vBool (b : Bool)
  | vNull
  | vUndefined
  | vObj (fields : List (String × JsValue))
  | vArr (elems : List JsValue)

/-- JavaScript property access `body.f`: lookup in an object, `undefined`
    on a missing field or a non-object. -/
def getField : JsValue → String → JsValue
  | .vObj fields, f =>
    match fields.find? (fun p => p.1 = f) with
    | some p => p.2
    | none => .vUndefined
  | _, _ => .vUndefined

/-- Characters matched by the class `[a-z0-9_:-]` under the `/i` flag
    (source line 139). -/
def isEventNameChar (c : Char) : Bool :=
  (('a' ≤ c && c ≤ 'z') || ('A' ≤ c && c ≤ 'Z') || ('0' ≤ c && c ≤ '9')
    || c = '_' || c = ':' || c = '-')

/-- Characters matched by the class `[a-z0-9-]` under the `/i` flag
    (source line 143). -/
def isSessionIdChar (c : Char) : Bool :=
  (('a' ≤ c && c ≤ 'z') || ('A' ≤ c && c ≤ 'Z') || ('0' ≤ c && c ≤ '9')
    || c = '-')

/-- `isValidEventName`: `typeof eventName === "string" && /^[a-z0-9_:-]{1,64}$/i.test(eventName)`. -/
def isValidEventName : JsValue → Bool
  | .vStr s => 1 ≤ s.length && s.length ≤ 64 && s.data.all isEventNameChar
  | _ => false

/-- `isValidSessionId`: `typeof sessionId === "string" && /^[a-z0-9-]{6,80}$/i.test(sessionId)`. -/
def isValidSessionId : JsValue → Bool
  | .vStr s => 6 ≤ s.length && s.length ≤ 80 && s.data.all isSessionIdChar
  | _ => false

/-- `clampDays` (source lines 133-136).  A JS number is modelled as
    `Option ℚ`: `none` stands for the non-finite numbers (`NaN`, `±Infinity`),
    all of which fail `Number.isFinite`; `Math.floor` is `Int.floor`. -/
def clampDays : Option ℚ → Int
  | none => 7
  | some q => min 30 (max 1 (Int.floor q))

/-- `utcDateOffset` (source lines 146-150): the UTC calendar date `daysBack`
    days before today, dates being modelled as integer day numbers. -/
def utcDateOffset (today : Int) (daysBack : Nat) : Int :=
  today - daysBack

/-- Health State (`redisState`, source lines 46-50). -/
structure HealthState where
  enabled : Bool
  connected : Bool
  lastError : Option String
  deriving DecidableEq

/-- One day bucket: the Event Counter Map at `keccak:events:<date>`, the
    Session Set at `keccak:sessions:<date>`, and their pending TTLs. -/
structure Bucket where
  events : List (String × Nat)
  sessions : Finset String
  eventsTtl : Option Nat
  sessionsTtl : Option Nat
  deriving DecidableEq

def Bucket.empty : Bucket := ⟨[], ∅, none, none⟩

/-- Redis `HINCRBY key f n`: increment field `f` by `n`, creating it at `n`
    when absent. -/
def hincrby (m : List (String × Nat)) (f : String) (n : Nat) : List (String × Nat) :=
  match m with
  | [] => [(f, n)]
  | (k, v) :: rest => if k = f then (k, v + n) :: rest else (k, v) :: hincrby rest f n

/-- Redis `HGET`-style read of a counter field; an absent field counts 0. -/
def hget (m : List (String × Nat)) (f : String) : Nat :=
  match m with
  | [] => 0
  | (k, v) :: rest => if k = f then v else hget rest f

/-- Sum of the counts of all fields of an Event Counter Map other than the
    reserved total key `"_total"`. -/
def sumOthers : List (String × Nat) → Nat
  | [] => 0
  | (k, v) :: rest => if k = "_total" then sumOthers rest else v + sumOthers rest

/-- 120-day TTL set by `storeEvent` (`60 * 60 * 24 * 120`). -/
def ttl120 : Nat := 60 * 60 * 24 * 120

/-- The committed body of `storeEvent`'s MULTI transaction (source lines
    162-172): `HINCRBY eventKey eventName 1`, `HINCRBY eventKey "_total" 1`,
    `EXPIRE eventKey`, and, when the session id validates, `SADD` + `EXPIRE`
    on the session key. -/
def applyEventTx (b : Bucket) (eventName : String) (sessionId : JsValue) : Bucket :=
  let b1 : Bucket :=
    { b with
      events := hincrby (hincrby b.events eventName 1) "_total" 1
      eventsTtl := some ttl120 }
  match sessionId with
  | .vStr s =>
    if isValidSessionId (.vStr s) then
      { b1 with sessions := insert s b1.sessions, sessionsTtl := some ttl120 }
    else b1
  | _ => b1

/-- `storeEvent` (source lines 152-178).  `hasClient` models `redis !== null`;
    `txo` is the outcome of `tx.exec()`: on a raised transport error the
    transaction applies nothing, the message is recorded in
    `redisState.lastError`, and the function returns `false`. -/
def storeEvent (hasClient : Bool) (hs : HealthState) (b : Bucket)
    (eventName : String) (sessionId : JsValue) (txo : Except String Unit) :
    Bool × HealthState × Bucket :=
  if hasClient = false ∨ hs.connected = false then
    (false, hs, b)
  else
    match txo with
    | .error msg => (false, { hs with lastError := some msg }, b)
    | .ok _ => (true, hs, applyEventTx b eventName sessionId)

/-- Ingest one accepted event through `storeEvent` in a connected state with
    a committing transaction. -/
def ingest (b : Bucket) (p : String × JsValue) : Bucket :=
  (storeEvent true ⟨true, true, none⟩ b p.1 p.2 (Except.ok ())).2.2

/-- A sequence of accepted ingestions into one day bucket, oldest first. -/
def ingestAll (l : List (String × JsValue)) : Bucket :=
  l.foldl ingest Bucket.empty

/-- `readJsonBody` (source lines 101-131).  `chunks` are the received body
    chunks; `parse` models `JSON.parse` (`none` when it throws).  A stream
    whose running total exceeds `maxBytes` rejects with `body_too_large`;
    zero chunks resolve to the empty object; otherwise the concatenation is
    parsed, rejecting with `invalid_json` on failure. -/
def readJsonBody (parse : String → Option JsValue) (chunks : List String)
    (maxBytes : Nat) : Except String JsValue :=
  if maxBytes < (chunks.map String.utf8ByteSize).sum then
    .error "body_too_large"
  else if chunks.isEmpty then
    .ok (.vObj [])
  else
    match parse (String.join chunks) with
    | some v => .ok v
    | none => .error "invalid_json"

/-- Per-endpoint JSON response payloads produced by the handlers. -/
structure StatEntry where
  date : Int
  events : List (String × Nat)
  uniqueSessions : Nat
  deriving DecidableEq

inductive ApiBody where
  | errBody (error : String)
  | errLast (error : String) (lastError : Option String)
  | errDetail (error : String) (detail : String)
  | eventsAck (ok stored redisEnabled : Bool)
  | statsOk (days : Nat) (stats : List StatEntry)
  deriving DecidableEq

/-- Core of the `POST /api/events` handler after body parsing (source lines
    252-266): validate `body.event`, then store and acknowledge with 202. -/
def postEventsCore (body : JsValue) (hasClient : Bool) (hs : HealthState)
    (b : Bucket) (txo : Except String Unit) : (Nat × ApiBody) × HealthState × Bucket :=
  match getField body "event" with
  | .vStr s =>
    if isValidEventName (.vStr s) then
      let r := storeEvent hasClient hs b s (getField body "sessionId") txo
      ((202, .eventsAck true r.1 r.2.1.enabled), r.2.1, r.2.2)
    else ((400, .errBody "invalid_event_name"), hs, b)
  | _ => ((400, .errBody "invalid_event_name"), hs, b)

/-- The full `POST /api/events` handler (source lines 242-267): read the JSON
    body (a read error answers 400 with the error code) and delegate. -/
def handlePostEvents (parse : String → Option JsValue) (chunks : List String)
    (hasClient : Bool) (hs : HealthState) (b : Bucket)
    (txo : Except String Unit) : (Nat × ApiBody) × HealthState × Bucket :=
  match readJsonBody parse chunks (64 * 1024) with
  | .error code => ((400, .errBody code), hs, b)
  | .ok body => postEventsCore body hasClient hs b txo

/-- JavaScript truthiness of a string-or-absent value: `undefined`/`null`
    and the empty string are falsy. -/
def jsTruthyStr : Option String → Bool
  | some s => s ≠ ""
  | none => false

/-- The supplied admin token of the `GET /api/stats` handler (source line
    275): `req.headers["x-admin-token"] || url.searchParams.get("token")`. -/
def suppliedTokenOf (header query : Option String) : Option String :=
  if jsTruthyStr header then header else query

/-- `buildStats` (source lines 206-226), reading days `start`, `start+1`, …,
    `start+n-1` back from `today`.  `store` gives each date's bucket;
    `errAt date` is the transport error raised by that day's reads, if any.
    The first error aborts the whole loop. -/
def buildStatsFrom (store : Int → Bucket) (errAt : Int → Option String)
    (today : Int) : Nat → Nat → Except String (List StatEntry)
  | _, 0 => .ok []
  | start, n + 1 =>
    match errAt (utcDateOffset today start) with
    | some e => .error e
    | none =>
      match buildStatsFrom store errAt today (start + 1) n with
      | .error e => .error e
      | .ok rest =>
        .ok ({ date := utcDateOffset today start
               events := (store (utcDateOffset today start)).events
               uniqueSessions := (store (utcDateOffset today start)).sessions.card } :: rest)

def buildStats (store : Int → Bucket) (errAt : Int → Option String)
    (today : Int) (days : Nat) : Except String (List StatEntry) :=
  buildStatsFrom store errAt today 0 days

/-- The clamped days count of one `GET /api/stats` request (source line
    287): `clampDays(Number.parseInt(url.searchParams.get("days") || "7", 10))`,
    `daysRaw` being the integer-or-`NaN` outcome of `parseInt`. -/
def daysOf (daysRaw : Option Int) : Int :=
  clampDays (daysRaw.map (fun n => (n : ℚ)))

/-- The `GET /api/stats` handler (source lines 269-294).  `adminToken` is the
    configured secret (`""` when unconfigured), `header`/`query` the two
    transport positions of the supplied token. -/
def handleGetStats (adminToken : String) (header query : Option String)
    (daysRaw : Option Int) (hasClient : Bool) (hs : HealthState)
    (store : Int → Bucket) (errAt : Int → Option String) (today : Int) :
    Nat × ApiBody :=
  if adminToken = "" then
    (403, .errBody "admin_token_not_configured")
  else if suppliedTokenOf header query ≠ some adminToken then
    (401, .errBody "unauthorized")
  else if hasClient = false ∨ hs.connected = false then
    (503, .errLast "redis_unavailable" hs.lastError)
  else
    match buildStats store errAt today (daysOf daysRaw).toNat with
    | .ok stats => (200, .statsOk (daysOf daysRaw).toNat stats)
    | .error e => (500, .errDetail "stats_query_failed" e)

end Keccak

namespace Keccak

/-! ### Lemmas about counter maps and single ingestions -/

theorem hget_hincrby_self (m : List (String × Nat)) (f : String) (n : Nat) :
    hget (hincrby m f n) f = hget m f + n := by
  induction m with
  | nil => simp [hincrby, hget]
  | cons p rest ih =>
    obtain ⟨k, v⟩ := p
    by_cases h : k = f
    · subst h; simp [hincrby, hget]
    · simp [hincrby, hget, h, ih]

theorem hget_hincrby_ne (m : List (String × Nat)) (f g : String) (n : Nat)
    (h : g ≠ f) : hget (hincrby m f n) g = hget m g := by
  induction m with
  | nil => simp [hincrby, hget, Ne.symm h]
  | cons p rest ih =>
    obtain ⟨k, v⟩ := p
    simp only [hincrby]
    by_cases hk : k = f
    · subst hk
      simp [hget, Ne.symm h]
    · by_cases hg : k = g
      · subst hg
        simp [hget, hk]
      · simp [hget, hk, hg, ih]

theorem sumOthers_hincrby_total (m : List (String × Nat)) (n : Nat) :
    sumOthers (hincrby m "_total" n) = sumOthers m := by
  induction m with
  | nil => simp [hincrby, sumOthers]
  | cons p rest ih =>
    obtain ⟨k, v⟩ := p
    simp only [hincrby]
    by_cases hk : k = "_total"
    · subst hk
      simp [sumOthers]
    · simp [sumOthers, hk, ih]

theorem sumOthers_hincrby_ne (m : List (String × Nat)) (f : String) (n : Nat)
    (h : f ≠ "_total") : sumOthers (hincrby m f n) = sumOthers m + n := by
  induction m with
  | nil => simp [hincrby, sumOthers, h]
  | cons p rest ih =>
    obtain ⟨k, v⟩ := p
    simp only [hincrby]
    by_cases hk : k = f
    · subst hk
      simp [sumOthers, h]
      omega
    · by_cases ht : k = "_total"
      · subst ht
        simp [sumOthers, hk, ih]
      · simp [sumOthers, hk, ht, ih]
        omega

theorem ingest_events (b : Bucket) (name : String) (sid : JsValue) :
    (ingest b (name, sid)).events = hincrby (hincrby b.events name 1) "_total" 1 := by
  cases sid with
  | vStr s =>
    by_cases h : isValidSessionId (.vStr s) = true <;>
      simp [ingest, storeEvent, applyEventTx, h]
  | vNum q => rfl
  | vBool bo => rfl
  | vNull => rfl
  | vUndefined => rfl
  | vObj fs => rfl
  | vArr es => rfl

theorem ingest_sessions_valid (b : Bucket) (name s : String)
    (h : isValidSessionId (.vStr s) = true) :
    (ingest b (name, .vStr s)).sessions = insert s b.sessions := by
  simp [ingest, storeEvent, applyEventTx, h]

theorem storeEvent_enabled (hasClient : Bool) (hs : HealthState) (b : Bucket)
    (name : String) (sid : JsValue) (txo : Except String Unit) :
    (storeEvent hasClient hs b name sid txo).2.1.enabled = hs.enabled := by
  cases txo <;> simp [storeEvent] <;> split <;> rfl

/-! ### C1: the reserved total key against the sum of the other keys -/

theorem total_invariant_fold (l : List (String × JsValue)) (b : Bucket)
    (hb : hget b.events "_total" = sumOthers b.events)
    (h : ∀ p ∈ l, p.1 ≠ "_total") :
    hget (l.foldl ingest b).events "_total" = sumOthers (l.foldl ingest b).events := by
  induction l generalizing b with
  | nil => simpa using hb
  | cons p rest ih =>
    refine ih (ingest b p) ?_ (fun q hq => h q (List.mem_cons_of_mem _ hq))
    obtain ⟨name, sid⟩ := p
    have hne : name ≠ "_total" := h _ (List.mem_cons_self _ _)
    rw [ingest_events, hget_hincrby_self, hget_hincrby_ne _ _ _ _ (Ne.symm hne),
      sumOthers_hincrby_total, sumOthers_hincrby_ne _ _ _ hne, hb]

/-- C1 (amended): after any sequence of accepted ingestions whose event names
    differ from the reserved key `"_total"`, the count stored under
    `"_total"` in the day's Event Counter Map equals the sum of the counts of
    all the other keys. -/
theorem total_invariant (l : List (String × JsValue))
    (h : ∀ p ∈ l, isValidEventName (.vStr p.1) = true ∧ p.1 ≠ "_total") :
    hget (ingestAll l).events "_total" = sumOthers (ingestAll l).events :=
  total_invariant_fold l Bucket.empty rfl (fun p hp => (h p hp).2)

/-- Witness for C1: two accepted ingestions named `click` and `view`. -/
theorem total_invariant_witness :
    hget (ingestAll [("click", JsValue.vUndefined), ("view", JsValue.vUndefined)]).events "_total"
      = sumOthers (ingestAll [("click", JsValue.vUndefined), ("view", JsValue.vUndefined)]).events :=
  total_invariant _ (by decide)

/-- C1 counterexample: `"_total"` itself passes `isValidEventName`, and one
    accepted ingestion of the event named `"_total"` leaves that key at 2
    while the sum of all other keys is 0 — the invariant as claimed fails. -/
theorem total_invariant_counterexample :
    isValidEventName (.vStr "_total") = true ∧
    hget (ingestAll [("_total", JsValue.vUndefined)]).events "_total" = 2 ∧
    sumOthers (ingestAll [("_total", JsValue.vUndefined)]).events = 0 := by
  decide

/-! ### C2: the write path never fails the caller -/

/-- C2: with a valid event name, `storeEvent` returns `stored = false` and
    leaves everything untouched when the store is unavailable; a transport
    error during the transaction is caught, recorded as `lastError` in the
    Health State, and still yields `stored = false`; and in every case the
    `POST /api/events` handler answers
    `202 {ok: true, stored, redisEnabled}`. -/
theorem ingestion_never_fails (hasClient : Bool) (hs : HealthState) (b : Bucket)
    (name : String) (sid : JsValue) (txo : Except String Unit)
    (hval : isValidEventName (.vStr name) = true) :
    (hasClient = false ∨ hs.connected = false →
      storeEvent hasClient hs b name sid txo = (false, hs, b)) ∧
    (∀ msg, txo = Except.error msg → hasClient = true → hs.connected = true →
      storeEvent hasClient hs b name sid txo
        = (false, { hs with lastError := some msg }, b)) ∧
    (postEventsCore (.vObj [("event", .vStr name), ("sessionId", sid)]) hasClient hs b txo).1
      = (202, .eventsAck true (storeEvent hasClient hs b name sid txo).1 hs.enabled) := by
  refine ⟨?_, ?_, ?_⟩
  · intro h
    unfold storeEvent
    rw [if_pos h]
  · intro msg he h1 h2
    subst he
    simp [storeEvent, h1, h2]
  · simp [postEventsCore, getField, hval, storeEvent_enabled]

/-- Witness for C2: a transport error `"io"` in a connected state is
    swallowed into `stored = false` and recorded as the last error. -/
theorem ingestion_never_fails_witness :
    storeEvent true ⟨true, true, none⟩ Bucket.empty "click" JsValue.vUndefined
      (Except.error "io") = (false, ⟨true, true, some "io"⟩, Bucket.empty) :=
  (ingestion_never_fails true ⟨true, true, none⟩ Bucket.empty "click"
    JsValue.vUndefined (Except.error "io") (by decide)).2.1 "io" rfl rfl rfl

/-! ### C8: replaying the same event and session id twice -/

/-- C8 (amended): for a valid event name other than the reserved key
    `"_total"` and a valid session id, ingesting the same pair twice on the
    same day increments that event's counter by exactly 2 while the Session
    Set grows by at most one element. -/
theorem replay_semantics (b : Bucket) (name s : String)
    (hname : isValidEventName (.vStr name) = true) (hne : name ≠ "_total")
    (hsid : isValidSessionId (.vStr s) = true) :
    hget (ingest (ingest b (name, .vStr s)) (name, .vStr s)).events name
        = hget b.events name + 2 ∧
    (ingest (ingest b (name, .vStr s)) (name, .vStr s)).sessions.card
        ≤ b.sessions.card + 1 := by
  constructor
  · rw [ingest_events, hget_hincrby_ne _ _ _ _ hne, hget_hincrby_self,
      ingest_events, hget_hincrby_ne _ _ _ _ hne, hget_hincrby_self]
  · rw [ingest_sessions_valid _ _ _ hsid, ingest_sessions_valid _ _ _ hsid,
      Finset.insert_idem]
    exact Finset.card_insert_le _ _

/-- Witness for C8: replaying `("click", "abcdef")` twice on an empty day. -/
theorem replay_semantics_witness :
    hget (ingest (ingest Bucket.empty ("click", JsValue.vStr "abcdef"))
        ("click", JsValue.vStr "abcdef")).events "click"
      = hget Bucket.empty.events "click" + 2 ∧
    (ingest (ingest Bucket.empty ("click", JsValue.vStr "abcdef"))
        ("click", JsValue.vStr "abcdef")).sessions.card
      ≤ Bucket.empty.sessions.card + 1 :=
  replay_semantics Bucket.empty "click" "abcdef" (by decide) (by decide) (by decide)

/-- C8 counterexample: the pair `("_total", "abcdef")` is accepted by the
    validators, yet replaying it twice moves the `"_total"` counter from 0
    to 4, not by exactly 2. -/
theorem replay_counterexample :
    isValidEventName (.vStr "_total") = true ∧
    isValidSessionId (.vStr "abcdef") = true ∧
    hget (ingest (ingest Bucket.empty ("_total", JsValue.vStr "abcdef"))
        ("_total", JsValue.vStr "abcdef")).events "_total" = 4 ∧
    hget Bucket.empty.events "_total" + 2 = 2 := by
  decide

/-! ### Stats aggregation lemmas -/

/-- The entry `buildStats` pushes for offset `i` (source lines 218-222). -/
def statEntryAt (store : Int → Bucket) (today : Int) (i : Nat) : StatEntry :=
  ⟨utcDateOffset today i, (store (utcDateOffset today i)).events,
    (store (utcDateOffset today i)).sessions.card⟩

theorem buildStatsFrom_ok (store : Int → Bucket) (errAt : Int → Option String)
    (today : Int) (n : Nat) :
    ∀ start : Nat, (∀ j, j < n → errAt (utcDateOffset today (start + j)) = none) →
    ∃ l, buildStatsFrom store errAt today start n = Except.ok l ∧ l.length = n ∧
      ∀ j, j < n → l.get? j = some (statEntryAt store today (start + j)) := by
  induction n with
  | zero =>
    intro start _
    exact ⟨[], rfl, rfl, fun j hj => absurd hj (Nat.not_lt_zero j)⟩
  | succ n ih =>
    intro start h
    have h0 : errAt (utcDateOffset today start) = none := by
      simpa using h 0 (Nat.succ_pos n)
    obtain ⟨l, hl, hlen, hj⟩ := ih (start + 1) (fun j hjlt => by
      simpa [show start + 1 + j = start + (j + 1) by omega]
        using h (j + 1) (by omega))
    refine ⟨statEntryAt store today start :: l, ?_, by simp [hlen], ?_⟩
    · simp only [buildStatsFrom, h0, hl, statEntryAt]
    · intro j hjlt
      cases j with
      | zero => simp
      | succ j =>
        have := hj j (by omega)
        simpa [show start + 1 + j = start + (j + 1) by omega] using this

theorem buildStatsFrom_error (store : Int → Bucket) (errAt : Int → Option String)
    (today : Int) (n : Nat) :
    ∀ (start i : Nat) (e : String), i < n →
    errAt (utcDateOffset today (start + i)) = some e →
    (∀ j, j < i → errAt (utcDateOffset today (start + j)) = none) →
    buildStatsFrom store errAt today start n = Except.error e := by
  induction n with
  | zero => intro start i e hi; omega
  | succ n ih =>
    intro start i e hi herr hnone
    cases i with
    | zero =>
      have h0 : errAt (utcDateOffset today start) = some e := by simpa using herr
      simp only [buildStatsFrom, h0]
    | succ i =>
      have h0 : errAt (utcDateOffset today start) = none := by
        simpa using hnone 0 (Nat.succ_pos i)
      have hrec := ih (start + 1) i e (by omega)
        (by simpa [show start + 1 + i = start + (i + 1) by omega] using herr)
        (fun j hj => by
          simpa [show start + 1 + j = start + (j + 1) by omega]
            using hnone (j + 1) (by omega))
      simp only [buildStatsFrom, h0, hrec]

/-! ### C4: shape and order of the stats sequence -/

/-- C4: for a clamped days value `N ∈ [1, 30]`, when no day's read raises,
    `buildStats` returns exactly `N` entries in ascending offset order, the
    `i`-th entry carrying the UTC date `i` days back, that day's Event
    Counter Map and its Session Set cardinality; a day with no recorded
    activity is not skipped and reports an empty map and zero sessions. -/
theorem stats_shape (store : Int → Bucket) (errAt : Int → Option String)
    (today : Int) (N : Nat) (h1 : 1 ≤ N) (h2 : N ≤ 30)
    (h3 : ∀ i, i < N → errAt (utcDateOffset today i) = none) :
    ∃ l, buildStats store errAt today N = Except.ok l ∧ l.length = N ∧
      (∀ i, i < N → l.get? i = some ⟨utcDateOffset today i,
        (store (utcDateOffset today i)).events,
        (store (utcDateOffset today i)).sessions.card⟩) ∧
      (∀ i, i < N → store (utcDateOffset today i) = Bucket.empty →
        l.get? i = some ⟨utcDateOffset today i, [], 0⟩) := by
  obtain ⟨l, hl, hlen, hj⟩ := buildStatsFrom_ok store errAt today N 0
    (fun j hjlt => by simpa using h3 j hjlt)
  have hentry : ∀ i, i < N → l.get? i = some ⟨utcDateOffset today i,
      (store (utcDateOffset today i)).events,
      (store (utcDateOffset today i)).sessions.card⟩ := by
    intro i hi
    simpa [statEntryAt] using hj i hi
  refine ⟨l, hl, hlen, hentry, ?_⟩
  intro i hi hempty
  rw [hentry i hi, hempty]
  simp [Bucket.empty]

/-- Witness for C4: three empty days starting from day number 0. -/
theorem stats_shape_witness :
    ∃ l, buildStats (fun _ => Bucket.empty) (fun _ => none) 0 3 = Except.ok l ∧
      l.length = 3 ∧ l.get? 0 = some ⟨0, [], 0⟩ := by
  obtain ⟨l, hl, hlen, _, hemp⟩ := stats_shape (fun _ => Bucket.empty)
    (fun _ => none) 0 3 (by decide) (by decide) (fun i _ => rfl)
  exact ⟨l, hl, hlen, by simpa [utcDateOffset] using hemp 0 (by decide) rfl⟩

/-! ### C5: failure modes of the stats read path -/

/-- C5: past authorization, an unavailable store yields
    `503 {error: "redis_unavailable", lastError}` without consulting the
    store, and a transport error on the first failing day's read makes the
    whole call answer `500 {error: "stats_query_failed", detail}` with no
    partial per-day results. -/
theorem stats_failure_modes (adminToken : String) (header query : Option String)
    (daysRaw : Option Int) (hasClient : Bool) (hs : HealthState)
    (store : Int → Bucket) (errAt : Int → Option String) (today : Int)
    (hTok : adminToken ≠ "") (hAuth : suppliedTokenOf header query = some adminToken) :
    (hasClient = false ∨ hs.connected = false →
      handleGetStats adminToken header query daysRaw hasClient hs store errAt today
        = (503, .errLast "redis_unavailable" hs.lastError)) ∧
    (∀ i e, hasClient = true → hs.connected = true →
      i < (daysOf daysRaw).toNat →
      errAt (utcDateOffset today i) = some e →
      (∀ j, j < i → errAt (utcDateOffset today j) = none) →
      handleGetStats adminToken header query daysRaw hasClient hs store errAt today
        = (500, .errDetail "stats_query_failed" e)) := by
  constructor
  · rintro (h | h) <;> simp [handleGetStats, hTok, hAuth, h]
  · intro i e h1 h2 hi herr hnone
    have hb : buildStats store errAt today (daysOf daysRaw).toNat = Except.error e :=
      buildStatsFrom_error store errAt today _ 0 i e hi (by simpa using herr)
        (fun j hj => by simpa using hnone j hj)
    simp [handleGetStats, hTok, hAuth, h1, h2, hb]

/-- Witness for C5: a read error `"io"` on day 0 fails the whole call. -/
theorem stats_failure_modes_witness :
    handleGetStats "secret" (some "secret") none (some 7) true ⟨true, true, none⟩
        (fun _ => Bucket.empty) (fun _ => some "io") 0
      = (500, .errDetail "stats_query_failed" "io") :=
  (stats_failure_modes "secret" (some "secret") none (some 7) true ⟨true, true, none⟩
      (fun _ => Bucket.empty) (fun _ => some "io") 0 (by decide) (by decide)).2
    0 "io" rfl rfl (by decide) rfl (fun j hj => absurd hj (Nat.not_lt_zero j))

/-! ### C3 and C10: the admin gate and token precedence -/

/-- C3 counterexample: with `ADMIN_TOKEN = "secret"`, a present-but-empty
    `x-admin-token` header and the correct token in the query parameter, the
    handler authorizes the request via the query parameter (answering 503
    here because the store is down) instead of letting the header take
    precedence, which would compare `""` to `"secret"` and answer 401. -/
theorem stats_auth_counterexample :
    handleGetStats "secret" (some "") (some "secret") (some 7) false
        ⟨true, false, none⟩ (fun _ => Bucket.empty) (fun _ => none) 0
      = (503, .errLast "redis_unavailable" none) ∧
    (503, ApiBody.errLast "redis_unavailable" none)
      ≠ (401, ApiBody.errBody "unauthorized") := by
  decide

/-- C3 (amended): with no configured token every request gets 403; with a
    configured token, 401 exactly when the supplied token
    (header-if-truthy, else query) differs from it, and never 401 when it
    matches; the header takes precedence exactly when its value is
    non-empty, an absent or empty header falling through to the query
    parameter. -/
theorem stats_auth_gate (adminToken : String) (header query : Option String)
    (daysRaw : Option Int) (hasClient : Bool) (hs : HealthState)
    (store : Int → Bucket) (errAt : Int → Option String) (today : Int) :
    (adminToken = "" →
      handleGetStats adminToken header query daysRaw hasClient hs store errAt today
        = (403, .errBody "admin_token_not_configured")) ∧
    (adminToken ≠ "" → suppliedTokenOf header query ≠ some adminToken →
      handleGetStats adminToken header query daysRaw hasClient hs store errAt today
        = (401, .errBody "unauthorized")) ∧
    (adminToken ≠ "" → suppliedTokenOf header query = some adminToken →
      (handleGetStats adminToken header query daysRaw hasClient hs store errAt today).1
        ≠ 401) ∧
    (∀ s, s ≠ "" → suppliedTokenOf (some s) query = some s) ∧
    suppliedTokenOf none query = query ∧
    suppliedTokenOf (some "") query = query := by
  refine ⟨?_, ?_, ?_, ?_, rfl, rfl⟩
  · intro h
    simp [handleGetStats, h]
  · intro h1 h2
    simp [handleGetStats, h1, h2]
  · intro h1 h2
    by_cases hc : hasClient = false ∨ hs.connected = false
    · simp [handleGetStats, h1, h2, hc]
    · cases hb : buildStats store errAt today (daysOf daysRaw).toNat <;>
        simp [handleGetStats, h1, h2, hc, hb]
  · intro s hne2
    simp [suppliedTokenOf, jsTruthyStr, hne2]

/-- Witness for C3: a wrong header token against a configured secret is
    rejected with `401 {error: "unauthorized"}`. -/
theorem stats_auth_gate_witness :
    handleGetStats "secret" (some "wrong") none (some 7) true ⟨true, true, none⟩
        (fun _ => Bucket.empty) (fun _ => none) 0
      = (401, ApiBody.errBody "unauthorized") :=
  (stats_auth_gate "secret" (some "wrong") none (some 7) true ⟨true, true, none⟩
      (fun _ => Bucket.empty) (fun _ => none) 0).2.1 (by decide) (by decide)

/-- C10: the supplied token is the `x-admin-token` header value when that
    value is truthy, otherwise the `token` query parameter: an absent or
    empty header falls through to the query parameter, and a non-empty
    header value wins over it. -/
theorem supplied_token_truthiness (query : Option String) :
    suppliedTokenOf none query = query ∧
    suppliedTokenOf (some "") query = query ∧
    ∀ s, s ≠ "" → suppliedTokenOf (some s) query = some s := by
  refine ⟨rfl, rfl, ?_⟩
  intro s h
  simp [suppliedTokenOf, jsTruthyStr, h]

/-- Witness for C10: a non-empty header value beats a differing query value. -/
theorem supplied_token_truthiness_witness :
    suppliedTokenOf (some "tok") (some "other") = some "tok" :=
  (supplied_token_truthiness (some "other")).2.2 "tok" (by decide)

/-! ### C6: the two validators -/

/-- C6: `isValidEventName` accepts exactly the strings of 1-64 characters
    drawn from `[A-Za-z0-9_:-]` and `isValidSessionId` exactly the strings
    of 6-80 characters drawn from `[A-Za-z0-9-]`; both return `false` (and
    never raise) on every non-string input. -/
theorem validators_spec :
    (∀ s : String, isValidEventName (.vStr s) = true ↔
      (1 ≤ s.length ∧ s.length ≤ 64 ∧ ∀ c ∈ s.data,
        ('a' ≤ c ∧ c ≤ 'z') ∨ ('A' ≤ c ∧ c ≤ 'Z') ∨ ('0' ≤ c ∧ c ≤ '9')
          ∨ c = '_' ∨ c = ':' ∨ c = '-')) ∧
    (∀ s : String, isValidSessionId (.vStr s) = true ↔
      (6 ≤ s.length ∧ s.length ≤ 80 ∧ ∀ c ∈ s.data,
        ('a' ≤ c ∧ c ≤ 'z') ∨ ('A' ≤ c ∧ c ≤ 'Z') ∨ ('0' ≤ c ∧ c ≤ '9')
          ∨ c = '-')) ∧
    (∀ q, isValidEventName (.vNum q) = false) ∧
    (∀ q, isValidSessionId (.vNum q) = false) ∧
    (∀ bo, isValidEventName (.vBool bo) = false) ∧
    (∀ bo, isValidSessionId (.vBool bo) = false) ∧
    isValidEventName .vNull = false ∧ isValidSessionId .vNull = false ∧
    isValidEventName .vUndefined = false ∧ isValidSessionId .vUndefined = false ∧
    (∀ fs, isValidEventName (.vObj fs) = false) ∧
    (∀ fs, isValidSessionId (.vObj fs) = false) ∧
    (∀ es, isValidEventName (.vArr es) = false) ∧
    (∀ es, isValidSessionId (.vArr es) = false) := by
  refine ⟨?_, ?_, fun _ => rfl, fun _ => rfl, fun _ => rfl, fun _ => rfl, rfl, rfl,
    rfl, rfl, fun _ => rfl, fun _ => rfl, fun _ => rfl, fun _ => rfl⟩
  · intro s
    simp [isValidEventName, isEventNameChar, List.all_eq_true, and_assoc, or_assoc]
  · intro s
    simp [isValidSessionId, isSessionIdChar, List.all_eq_true, and_assoc, or_assoc]

/-- Witness for C6: a string with every character class represented is
    accepted as an event name. -/
theorem validators_spec_witness :
    isValidEventName (.vStr "Page_view:2-ok") = true :=
  (validators_spec.1 "Page_view:2-ok").2 (by decide)

/-! ### C7: clamping the days parameter -/

/-- C7: every finite numeric input is clamped to an integer in `[1, 30]`
    (below 1 becomes 1, above 30 becomes 30), every non-finite input (the
    `NaN` of parsing a non-numeric value) maps to 7, and in particular
    `clampDays 0 = 1`, `clampDays 31 = 30`, `clampDays NaN = 7`. -/
theorem clampDays_spec :
    clampDays none = 7 ∧
    (∀ q : ℚ, 1 ≤ clampDays (some q) ∧ clampDays (some q) ≤ 30) ∧
    (∀ q : ℚ, q < 1 → clampDays (some q) = 1) ∧
    (∀ q : ℚ, 30 < q → clampDays (some q) = 30) ∧
    clampDays (some 0) = 1 ∧ clampDays (some 31) = 30 := by
  have hrange : ∀ q : ℚ, 1 ≤ clampDays (some q) ∧ clampDays (some q) ≤ 30 := by
    intro q
    unfold clampDays
    constructor
    · exact le_min (by norm_num) (le_max_left _ _)
    · exact min_le_left _ _
  refine ⟨rfl, hrange, ?_, ?_, ?_, ?_⟩
  · intro q hq
    have hfl : Int.floor q < 1 := by
      rw [Int.floor_lt]
      exact_mod_cast hq
    simp only [clampDays]
    omega
  · intro q hq
    have hfl : (30 : Int) ≤ Int.floor q := by
      rw [Int.le_floor]
      exact_mod_cast hq.le
    simp only [clampDays]
    omega
  · norm_num [clampDays]
  · norm_num [clampDays]

/-- Witness for C7: one half is finite and below 1, so it clamps to 1. -/
theorem clampDays_spec_witness : clampDays (some (1 / 2)) = 1 :=
  clampDays_spec.2.2.1 (1 / 2) (by norm_num)

/-! ### C9: an empty request body -/

/-- C9: a `POST /api/events` request whose body carried zero bytes resolves
    to the empty object rather than rejecting, so the handler answers
    `400 {error: "invalid_event_name"}` (the `event` field is absent), not
    `400 {error: "invalid_json"}`. -/
theorem empty_body_flow (parse : String → Option JsValue) (hasClient : Bool)
    (hs : HealthState) (b : Bucket) (txo : Except String Unit) :
    readJsonBody parse [] (64 * 1024) = Except.ok (.vObj []) ∧
    (handlePostEvents parse [] hasClient hs b txo).1
      = (400, .errBody "invalid_event_name") := by
  exact ⟨rfl, rfl⟩

/-- Witness for C9: the flow at one concrete parser and state. -/
theorem empty_body_flow_witness :
    (handlePostEvents (fun _ => none) [] true ⟨true, true, none⟩ Bucket.empty
        (Except.ok ())).1 = (400, ApiBody.errBody "invalid_event_name") :=
  (empty_body_flow (fun _ => none) true ⟨true, true, none⟩ Bucket.empty
    (Except.ok ())).2

end Keccak
